import Mathlib

/-!
# Verification of the dash4devs-sdk payment subsystem

Shallow embedding of the client-side payment tokenization and
charge/authorize/capture/void orchestration subsystem of the dash4devs SDK:

* `src/services/payment.js` — `PaymentModule` (load/tokenize state machine,
  charge/authorize/capture/void request builders);
* `src/processors/authorize-net.js` — `AuthorizeNetCSR` (script loading,
  card validation, Accept.js tokenization);
* `src/processors/stripe.js` — `StripeCSR` (script loading, Elements
  tokenization).

JavaScript conventions used throughout the embedding:

* An absent (`undefined`) optional field is `Option.none`; a present field is
  `Option.some`.
* A thrown `Error` / rejected promise is an `Except.error` carrying the
  error class (per the spec's error taxonomy) and the exact message string
  from the source.  Producing an `Except.ok` body models issuing the
  backend fetch with that body, so `Except.error` implies no network call.
* `String(x)` on the amount values that occur in the claims is modelled by
  `jsString`; JS decimal-literal numbers are modelled by their integer part
  and fraction-digit string (ECMAScript prints such money-sized literals
  back verbatim, with no exponent).
-/

/-- Decidable equality for `Except`, used to derive it for result types. -/
instance {ε α : Type} [DecidableEq ε] [DecidableEq α] : DecidableEq (Except ε α) :=
  fun a b =>
    match a, b with
    | .ok x, .ok y =>
      if h : x = y then .isTrue (by rw [h]) else .isFalse (by simp [h])
    | .error x, .error y =>
      if h : x = y then .isTrue (by rw [h]) else .isFalse (by simp [h])
    | .ok _, .error _ => .isFalse (by simp)
    | .error _, .ok _ => .isFalse (by simp)

/-- Spec §7 error taxonomy.  The source throws plain `Error`s; each
constructor records the class the spec assigns to that throw site, together
with the verbatim message string from the source. -/
inductive PMError where
  | validationError (msg : String)
  | notLoadedError (msg : String)
  | environmentError (msg : String)
  | scriptLoadError (msg : String)
  | noProcessorConfiguredError (msg : String)
  | unsupportedProcessorError (msg : String)
  | processorTokenizeError (msg code : String)
deriving Repr, DecidableEq

/-- A JS value in `amount` position: `undefined`, a nonnegative decimal
number literal (integer part plus fraction-digit string), `NaN`, or a
string. -/
inductive JSAmount where
  | undef
  | num (intPart : Nat) (frac : String)
  | nan
  | str (s : String)
deriving Repr, DecidableEq

namespace JSAmount

/-- JS truthiness of an `amount` value: `undefined`, `NaN`, `0`, and `""`
are falsy; every other number and every nonempty string is truthy. -/
def truthy : JSAmount → Bool
  | undef => false
  | nan => false
  | num i f => !(i == 0 && f.toList.all (· == '0'))
  | str s => !(s == "")

/-- Models `String(amount)` for the values above.  For `num i f` this is the
decimal rendering `"i.f"` (or `"i"` when there are no fraction digits),
which is what ECMAScript `ToString` produces for the money-sized decimal
literals the claims concern (no scientific notation below 10^21). -/
def jsString : JSAmount → String
  | undef => "undefined"
  | nan => "NaN"
  | num i "" => toString i
  | num i f => toString i ++ "." ++ f
  | str s => s
end JSAmount

/-- JS truthiness of an optional string field (`undefined` and `""` are
falsy). -/
def strTruthy : Option String → Bool
  | none => false
  | some s => !(s == "")

/-- Models `x || d` for an optional string field `x` and string default `d`. -/
def jsOrDefault (x : Option String) (d : String) : String :=
  match x with
  | none => d
  | some s => if s = "" then d else s

/-- A billing object, modelled as a JSON field list; `{}` is `[]`. -/
abbrev Billing := List (String × String)

/-- Argument object of `PaymentModule.charge` / `PaymentModule.authorize`
(src/services/payment.js).  Optional fields are `none` when absent. -/
structure ChargeData where
  token : Option String := none
  descriptor : Option String := none
  amount : JSAmount := .undef
  currency : Option String := none
  invoiceNumber : Option String := none
  description : Option String := none
  billing : Option Billing := none
deriving Repr, DecidableEq

/-- The JSON body POSTed by `charge`/`authorize` (snake_case fields). -/
structure ChargeBody where
  token : String
  descriptor : String
  amount : String
  currency : String
  invoice_number : String
  description : String
  billing : Billing
deriving Repr, DecidableEq

namespace PaymentModule

/-- Embeds `PaymentModule.charge` (src/services/payment.js lines 189–208): the
required-field truthiness check followed by body construction.  The
`chargeData` argument itself may be absent (`none`). -/
def charge (chargeData : Option ChargeData) : Except PMError ChargeBody :=
  match chargeData with
  | none => .error (.validationError "token and amount are required for charge().")
  | some d =>
    if !(strTruthy d.token) || !(d.amount.truthy) then
      .error (.validationError "token and amount are required for charge().")
    else
      .ok {
        token := d.token.getD ""
        descriptor := jsOrDefault d.descriptor ""
        amount := d.amount.jsString
        currency := jsOrDefault d.currency "USD"
        invoice_number := jsOrDefault d.invoiceNumber ""
        description := jsOrDefault d.description ""
        billing := d.billing.getD []
      }

/-- Embeds `PaymentModule.authorize` (src/services/payment.js lines 249–268):
identical validation and body shape to `charge`, different endpoint and
message. -/
def authorize (authData : Option ChargeData) : Except PMError ChargeBody :=
  match authData with
  | none => .error (.validationError "token and amount are required for authorize().")
  | some d =>
    if !(strTruthy d.token) || !(d.amount.truthy) then
      .error (.validationError "token and amount are required for authorize().")
    else
      .ok {
        token := d.token.getD ""
        descriptor := jsOrDefault d.descriptor ""
        amount := d.amount.jsString
        currency := jsOrDefault d.currency "USD"
        invoice_number := jsOrDefault d.invoiceNumber ""
        description := jsOrDefault d.description ""
        billing := d.billing.getD []
      }

/-- Argument object of `PaymentModule.capture`. -/
structure CaptureData where
  transactionId : Option String := none
  amount : JSAmount := .undef
deriving Repr, DecidableEq

/-- Body POSTed by `capture`: `amount` is omitted (`none`) when not sent. -/
structure CaptureBody where
  transaction_id : String
  amount : Option String
deriving Repr, DecidableEq

/-- Embeds `PaymentModule.capture` (src/services/payment.js lines 286–305):
throws `ValidationError` unless `transactionId` is truthy; includes
`amount` in the body, stringified, exactly when it is not `undefined`. -/
def capture (captureData : Option CaptureData) : Except PMError CaptureBody :=
  match captureData with
  | none => .error (.validationError "transactionId is required for capture().")
  | some d =>
    if !(strTruthy d.transactionId) then
      .error (.validationError "transactionId is required for capture().")
    else
      .ok {
        transaction_id := d.transactionId.getD ""
        amount := if d.amount = .undef then none else some d.amount.jsString
      }

/-- Argument object of `PaymentModule.void`. -/
structure VoidData where
  transactionId : Option String := none
deriving Repr, DecidableEq

/-- Body POSTed by `void`. -/
structure VoidBody where
  transaction_id : String
deriving Repr, DecidableEq

/-- Embeds `PaymentModule.void` (src/services/payment.js lines 323–336). -/
def voidTx (voidData : Option VoidData) : Except PMError VoidBody :=
  match voidData with
  | none => .error (.validationError "transactionId is required for void().")
  | some d =>
    if !(strTruthy d.transactionId) then
      .error (.validationError "transactionId is required for void().")
    else
      .ok { transaction_id := d.transactionId.getD "" }

end PaymentModule

example : PaymentModule.charge (some { token := some "tok_abc", amount := .num 49 "99" }) =
    .ok { token := "tok_abc", descriptor := "", amount := "49.99", currency := "USD",
          invoice_number := "", description := "", billing := [] } := by rfl

example : PaymentModule.capture (some {}) =
    .error (.validationError "transactionId is required for capture().") := by rfl

namespace AuthorizeNetCSR

/-- Whitespace as matched by the `\s` in `cardNumber.replace(/\s+/g, "")`. -/
def isJsSpace (c : Char) : Bool :=
  c = ' ' || c = '\t' || c = '\n' || c = '\r' || c = '\x0b' || c = '\x0c'

/-- Models `cardNumber.replace(/\s+/g, "")`. -/
def stripSpaces (s : String) : String :=
  ⟨s.toList.filter (fun c => !isJsSpace c)⟩

/-- Accumulator loop of `digitsToNat`. -/
def digitsToNatAux : Nat → List Char → Nat
  | n, [] => n
  | n, c :: cs => digitsToNatAux (n * 10 + (c.toNat - '0'.toNat)) cs

/-- Models `parseInt` on an all-digit decimal string. -/
def digitsToNat (s : String) : Nat :=
  digitsToNatAux 0 s.toList

/-- After the month group of `^(\d{1,2})\/?(\d{2,4})$` has matched, the rest
of the input must be an optional `/` followed by 2–4 digits reaching the end
of the string. -/
def restYear (cs : List Char) : Option (List Char) :=
  let ys := match cs with
    | '/' :: rest => rest
    | rest => rest
  if ys.all (·.isDigit) && 2 ≤ ys.length && ys.length ≤ 4 then some ys else none

/-- Models `expDate.match(/^(\d{1,2})\/?(\d{2,4})$/)`: greedy month group (two
digits preferred, backtracking to one), optional slash, 2–4 digit year
group anchored at the end.  Returns the two captured groups. -/
def expMatch (s : String) : Option (String × String) :=
  match s.toList with
  | [] => none
  | c1 :: rest1 =>
    if !c1.isDigit then none
    else
      match rest1 with
      | c2 :: rest2 =>
        if c2.isDigit then
          match restYear rest2 with
          | some ys => some (⟨[c1, c2]⟩, ⟨ys⟩)
          | none => (restYear rest1).map (fun ys => (⟨[c1]⟩, ⟨ys⟩))
        else (restYear rest1).map (fun ys => (⟨[c1]⟩, ⟨ys⟩))
      | [] => none

/-- Models `month.padStart(2, "0")` for the one- or two-digit month group. -/
def padTo2 (s : String) : String :=
  if s.length = 1 then "0" ++ s else s

/-- Raw card input for the Authorize.net (variant A) handler. -/
structure CardData where
  cardNumber : Option String := none
  expDate : Option String := none
  cvv : Option String := none
deriving Repr, DecidableEq

/-- Output of `_validateAndClean`. -/
structure CleanedCard where
  cardNumber : String
  month : String
  year : String
  cvv : String
deriving Repr, DecidableEq

/-- The expiry checks of `_validateAndClean`
(src/processors/authorize-net.js lines 186–199), on the parsed month
number, the normalized two-digit year number, and the current month/year.
`curMonth` is `now.getMonth() + 1` and `curYear` is
`now.getFullYear() % 100`; the code reads them from a local-time `Date`
(the spec says UTC), so "now" enters the embedding as these two
parameters.  Returns the error thrown, if any. -/
def checkExpiryNums (monthNum yearNum curMonth curYear : Nat) : Option PMError :=
  if monthNum < 1 || monthNum > 12 then
    some (.validationError "Invalid expiration month.")
  else if yearNum < curYear || (yearNum == curYear && monthNum < curMonth) then
    some (.validationError "This card has expired.")
  else
    none

/-- Embeds `AuthorizeNetCSR._validateAndClean`
(src/processors/authorize-net.js lines 161–208): required-field truthiness
checks, card-number cleaning and `^\d{13,19}$` test, expiry parsing and
normalization (4-digit year truncated to its last two digits), expiry
checks, and the `^\d{3,4}$` CVV test. -/
def validateAndClean (cardData : Option CardData) (curMonth curYear : Nat) :
    Except PMError CleanedCard :=
  match cardData with
  | none => .error (.validationError "Card data is required.")
  | some cd =>
    if !(strTruthy cd.cardNumber) then
      .error (.validationError "Card number is required.")
    else
      let cleanNumber := stripSpaces (cd.cardNumber.getD "")
      if !(13 ≤ cleanNumber.length && cleanNumber.length ≤ 19
            && cleanNumber.toList.all (·.isDigit)) then
        .error (.validationError "Invalid card number.")
      else if !(strTruthy cd.expDate) then
        .error (.validationError "Expiration date is required.")
      else
        match expMatch (cd.expDate.getD "") with
        | none =>
          .error (.validationError "Expiration date must be in MM/YY or MM/YYYY format.")
        | some (m0, y0) =>
          let month := padTo2 m0
          let year := if y0.length = 4 then y0.drop 2 else y0
          match checkExpiryNums (digitsToNat month) (digitsToNat year) curMonth curYear with
          | some e => .error e
          | none =>
            if !(strTruthy cd.cvv) then
              .error (.validationError "Security code (CVV) is required.")
            else
              let cvv := cd.cvv.getD ""
              if !(3 ≤ cvv.length && cvv.length ≤ 4 && cvv.toList.all (·.isDigit)) then
                .error (.validationError "Security code must be 3 or 4 digits.")
              else
                .ok { cardNumber := cleanNumber, month := month, year := year, cvv := cvv }

end AuthorizeNetCSR

example : AuthorizeNetCSR.validateAndClean
    (some { cardNumber := some "4111 1111 1111 1111", expDate := some "12/30",
            cvv := some "123" }) 10 26 =
    .ok { cardNumber := "4111111111111111", month := "12", year := "30", cvv := "123" } := by
  rfl

example : AuthorizeNetCSR.validateAndClean
    (some { cardNumber := some "4111111111111111", expDate := some "01/20",
            cvv := some "123" }) 6 25 =
    .error (.validationError "This card has expired.") := by rfl

example : AuthorizeNetCSR.validateAndClean
    (some { cardNumber := some "4111111111111111", expDate := some "12/2030",
            cvv := some "123" }) 10 26 =
    .ok { cardNumber := "4111111111111111", month := "12", year := "30", cvv := "123" } := by
  rfl

/-- The uniform token shape `{token, descriptor}` returned by every
processor handler. -/
structure PaymentToken where
  token : String
  descriptor : String
deriving Repr, DecidableEq

namespace PaymentModule

/-- What the synchronous prefix of `PaymentModule.load()` returns to its
caller: the already-cached `this._processor` value, or the promise stored
in `this._loading` (freshly created or shared). -/
inductive LoadResult where
  | cachedValue
  | sharedPromise (id : Nat)
deriving Repr, DecidableEq

/-- Instance state of `PaymentModule` (src/services/payment.js lines
24–34) plus the bookkeeping an execution needs: `rejected` is the
settlement state of the promise object held in `loading` (not a JS field),
and `fetchCount` counts how many times the async body of `load()` — the
config fetch followed by at most one handler construction and script load —
has been started. -/
structure State where
  processor : Option String := none
  handlerSet : Bool := false
  loaded : Bool := false
  loading : Option Nat := none
  rejected : Bool := false
  fetchCount : Nat := 0
  nextPromise : Nat := 0
deriving Repr, DecidableEq

/-- The synchronous prefix of `PaymentModule.load()`
(src/services/payment.js lines 51–83): return the cached processor when
`_loaded`, return the shared `_loading` promise when present, otherwise
create a fresh promise, store it in `_loading`, and start the async body
(one config fetch, at most one handler script load). -/
def loadCall (s : State) : State × LoadResult :=
  if s.loaded then (s, .cachedValue)
  else
    match s.loading with
    | some p => (s, .sharedPromise p)
    | none =>
      let p := s.nextPromise
      ({ s with loading := some p, nextPromise := p + 1, fetchCount := s.fetchCount + 1 },
        .sharedPromise p)

/-- The async body of `load()` completes successfully with processor slug
`slug`: `_processor`/`_clientConfig` are assigned, the handler is
constructed and loaded only when `window` is defined (browser), and
`_loaded` is set.  `_loading` keeps holding the (now resolved) promise. -/
def loadSuccess (slug : String) (windowDefined : Bool) (s : State) : State :=
  { s with
    processor := some slug
    handlerSet := if windowDefined then true else s.handlerSet
    loaded := true }

/-- The async body of `load()` throws (config fetch failure, no processor
configured, unsupported slug, or handler script-load failure): the promise
held in `_loading` rejects.  No instance field is reset — `_loading` keeps
the rejected promise and `_loaded` stays `false`. -/
def loadFailure (s : State) : State :=
  { s with rejected := true }

/-- Runs `n` back-to-back invocations of `load()` on the same instance with no
intervening settlement — the synchronous interleaving of `n` concurrent
callers on the event loop. -/
def loadCalls : Nat → State → State × List LoadResult
  | 0, s => (s, [])
  | n + 1, s =>
    let (s', r) := loadCall s
    let (s'', rs) := loadCalls n s'
    (s'', r :: rs)

/-- Where `PaymentModule.tokenize` routes after its guards. -/
inductive TokenizeRoute where
  | authorizeNetHandler
  | stripeHandler
deriving Repr, DecidableEq

/-- The guard-and-dispatch logic of `PaymentModule.tokenize`
(src/services/payment.js lines 130–155): the not-loaded check on
`_loaded`/`_handler`, then the browser-environment check, then the switch
on the processor slug.  `procName` is `this._processor.name`, used only in
the unsupported-processor message.  An `Except.ok` route models delegating
to the handler (a processor call); `Except.error` models a throw before
any handler or processor call. -/
def tokenizeCall (s : State) (windowDefined : Bool) (procName : String) :
    Except PMError TokenizeRoute :=
  if !s.loaded || !s.handlerSet then
    .error (.notLoadedError "Payment processor not loaded. Call dash.payment.load() first.")
  else if !windowDefined then
    .error (.environmentError
      ("tokenize() can only be called in a browser environment (CSR). " ++
        "Use charge() on the server side (SSR)."))
  else
    match s.processor with
    | some "authorize-net" => .ok .authorizeNetHandler
    | some "stripe" => .ok .stripeHandler
    | _ => .error (.unsupportedProcessorError
        ("Tokenization not supported for " ++ procName ++ "."))

end PaymentModule

example :
    PaymentModule.loadCalls 3 {} =
      ({ loading := some 0, fetchCount := 1, nextPromise := 1 },
        [.sharedPromise 0, .sharedPromise 0, .sharedPromise 0]) := by decide

example :
    PaymentModule.tokenizeCall (PaymentModule.loadSuccess "stripe" false
        (PaymentModule.loadCall {}).1) false "Stripe" =
      .error (.notLoadedError "Payment processor not loaded. Call dash.payment.load() first.") := by
  rfl

/-- Returns `true` iff `needle` occurs as a contiguous substring of `hay` — the
CSS attribute selector `[src*="..."]`. -/
def hasSubstr (hay needle : List Char) : Bool :=
  match hay with
  | [] => needle.isEmpty
  | _ :: t => needle.isPrefixOf hay || hasSubstr t needle

/-- Page-global browser state shared by every SDK instance: whether the
processors' global client symbols (`window.Accept`, `window.Stripe`) are
defined, and the `src` attributes of the `<script>` tags in the document,
in document order. -/
structure Dom where
  acceptGlobal : Bool := false
  stripeGlobal : Bool := false
  scripts : List String := []
deriving Repr, DecidableEq

/-- What the promise executor of a handler's `load()` does to the page. -/
inductive ScriptLoadAction where
  | adoptGlobal
  | attachListener (src : String)
  | injectScript (src : String)
  | removeAndInject (removedSrc src : String)
deriving Repr, DecidableEq

namespace AuthorizeNetCSR

/-- Accept.js production CDN URL (src/processors/authorize-net.js line 10). -/
def ACCEPT_JS_PROD : String := "https://js.authorize.net/v1/Accept.js"

/-- Accept.js sandbox CDN URL (src/processors/authorize-net.js line 11). -/
def ACCEPT_JS_SANDBOX : String := "https://jstest.authorize.net/v1/Accept.js"

/-- The promise executor of `AuthorizeNetCSR.load()`
(src/processors/authorize-net.js lines 63–93): adopt `window.Accept` when
present; otherwise pick the environment's URL, remove the first `<script>`
tag whose `src` contains `"authorize.net"` (`querySelector` +
`.remove()`), if any, and append a fresh async script tag.  No listener is
ever attached to an existing tag. -/
def loadBody (environment : String) (dom : Dom) : Dom × ScriptLoadAction :=
  if dom.acceptGlobal then (dom, .adoptGlobal)
  else
    let src := if environment = "live" then ACCEPT_JS_PROD else ACCEPT_JS_SANDBOX
    match dom.scripts.find? (fun t => hasSubstr t.toList "authorize.net".toList) with
    | some existing =>
      ({ dom with scripts := dom.scripts.erase existing ++ [src] },
        .removeAndInject existing src)
    | none =>
      ({ dom with scripts := dom.scripts ++ [src] }, .injectScript src)

end AuthorizeNetCSR

namespace StripeCSR

/-- Stripe.js CDN URL (src/processors/stripe.js line 8). -/
def STRIPE_JS_URL : String := "https://js.stripe.com/v3/"

/-- The promise executor of `StripeCSR.load()`
(src/processors/stripe.js lines 34–69): adopt `window.Stripe` when
present; otherwise attach a load listener to an existing `<script>` tag
whose `src` equals the Stripe.js URL (`script[src="..."]`, exact match);
otherwise append a fresh async script tag. -/
def loadBody (dom : Dom) : Dom × ScriptLoadAction :=
  if dom.stripeGlobal then (dom, .adoptGlobal)
  else
    match dom.scripts.find? (fun t => t = STRIPE_JS_URL) with
    | some existing => (dom, .attachListener existing)
    | none =>
      ({ dom with scripts := dom.scripts ++ [STRIPE_JS_URL] }, .injectScript STRIPE_JS_URL)

/-- Builds `{token: paymentMethod.id, descriptor: "STRIPE.PAYMENT_METHOD"}`
(src/processors/stripe.js lines 122–125). -/
def successToken (paymentMethodId : String) : PaymentToken :=
  { token := paymentMethodId, descriptor := "STRIPE.PAYMENT_METHOD" }

end StripeCSR

/-- Per-handler-instance load state, identical in shape for both handlers
(`_loaded`, `_loading` in src/processors/authorize-net.js lines 43–44 and
src/processors/stripe.js lines 15–16), plus the settlement state of the
promise in `loading` and a count of executor runs (each run performs the
DOM probe and at most one script injection). -/
structure HandlerState where
  loaded : Bool := false
  loading : Option Nat := none
  rejected : Bool := false
  bodyRuns : Nat := 0
  nextPromise : Nat := 0
deriving Repr, DecidableEq

/-- What the synchronous prefix of a handler's `load()` returns. -/
inductive HandlerLoadResult where
  | alreadyLoaded
  | sharedPromise (id : Nat)
  | envThrow
deriving Repr, DecidableEq

/-- The memoization prefix shared verbatim by `AuthorizeNetCSR.load()`
(src/processors/authorize-net.js lines 52–62) and `StripeCSR.load()`
(src/processors/stripe.js lines 24–32): return immediately when `_loaded`,
return the shared `_loading` promise when present, throw outside a
browser, otherwise store a fresh promise in `_loading` and run the
executor. -/
def handlerLoadCall (windowDefined : Bool) (s : HandlerState) :
    HandlerState × HandlerLoadResult :=
  if s.loaded then (s, .alreadyLoaded)
  else
    match s.loading with
    | some p => (s, .sharedPromise p)
    | none =>
      if !windowDefined then (s, .envThrow)
      else
        let p := s.nextPromise
        ({ s with loading := some p, nextPromise := p + 1, bodyRuns := s.bodyRuns + 1 },
          .sharedPromise p)

/-- The `script.onerror` path of either handler's executor: the promise in
`_loading` rejects with the script-load error; `_loaded` stays `false` and
`_loading` is not cleared. -/
def handlerScriptError (s : HandlerState) : HandlerState :=
  { s with rejected := true }

/-- The `script.onload` / global-adoption path: `_loaded` is set. -/
def handlerScriptLoaded (s : HandlerState) : HandlerState :=
  { s with loaded := true }

namespace AuthorizeNetCSR

/-- The payload `tokenize` submits to `window.Accept.dispatchData`
(src/processors/authorize-net.js lines 121–132). -/
structure SecureData where
  clientKey : String
  apiLoginID : String
  cardNumber : String
  month : String
  year : String
  cardCode : String
deriving Repr, DecidableEq

/-- How a call to `AuthorizeNetCSR.tokenize` ends.  `dispatched` means
`window.Accept.dispatchData` was invoked with the given payload — a
processor call; every other constructor is a throw/rejection that happens
before any processor call. -/
inductive TokenizeOutcome where
  | envError (msg : String)
  | scriptError (msg : String)
  | acceptMissing (msg : String)
  | validationFailed (e : PMError)
  | dispatched (payload : SecureData)
deriving Repr, DecidableEq

/-- Embeds `AuthorizeNetCSR.tokenize` (src/processors/authorize-net.js lines
108–155) as one run over the outside world: when the handler is not
loaded it first awaits an implicit `this.load()` (throwing outside a
browser, rejecting if `_loading` already holds a rejected promise,
adopting an existing `window.Accept`, or else injecting the script —
`scriptLoads` says whether that injected script's load event fires and
defines `window.Accept`, versus its error event firing); then checks
`window.Accept`, validates via `_validateAndClean` with current
month/year `curMonth`/`curYear`, and dispatches the cleaned payload. -/
def tokenizeRun (clientKey apiLoginId : String) (st : HandlerState)
    (windowDefined : Bool) (dom : Dom) (scriptLoads : Bool)
    (cardData : Option CardData) (curMonth curYear : Nat) : TokenizeOutcome :=
  let afterLoad : Except TokenizeOutcome Dom :=
    if st.loaded then .ok dom
    else if st.loading.isSome && st.rejected then
      .error (.scriptError "Failed to load Accept.js. Check your network connection.")
    else if !windowDefined then
      .error (.envError
        ("AuthorizeNetCSR.load() can only be called in a browser environment. " ++
          "Use AuthorizeNetSSR for server-side operations."))
    else if dom.acceptGlobal then .ok dom
    else if scriptLoads then .ok { dom with acceptGlobal := true }
    else .error (.scriptError "Failed to load Accept.js. Check your network connection.")
  match afterLoad with
  | .error e => e
  | .ok dom' =>
    if !dom'.acceptGlobal then
      .acceptMissing "Accept.js is not loaded. Call load() first."
    else
      match validateAndClean cardData curMonth curYear with
      | .error e => .validationFailed e
      | .ok c =>
        .dispatched
          { clientKey := clientKey, apiLoginID := apiLoginId,
            cardNumber := c.cardNumber, month := c.month, year := c.year,
            cardCode := c.cvv }

end AuthorizeNetCSR

namespace StripeCSR

/-- The result `stripe.createPaymentMethod` hands back: either a payment
method id or an error object `{message?, code, type}`. -/
inductive StripeResponse where
  | success (paymentMethodId : String)
  | failure (message : Option String) (code : String) (errType : String)
deriving Repr, DecidableEq

/-- The error `tokenize` throws for a failure response
(src/processors/stripe.js lines 115–120): the processor's message verbatim
(defaulted by `||` only when missing or empty), with `code` and `type`
copied over. -/
structure StripeError where
  message : String
  code : String
  errType : String
deriving Repr, DecidableEq

/-- How a call to `StripeCSR.tokenize` ends.  `processorCall` means
`this._stripe.createPaymentMethod` was invoked — a processor call — and
carries how its result was translated; the other constructors are
throws/rejections of the implicit load, before any processor call. -/
inductive TokenizeOutcome where
  | envError (msg : String)
  | scriptError (msg : String)
  | processorCall (result : Except StripeError PaymentToken)
deriving Repr, DecidableEq

/-- Embeds `StripeCSR.tokenize` (src/processors/stripe.js lines 103–126) as one
run: when `this._stripe` is not yet constructed it awaits an implicit
`this.load()` (throwing outside a browser, rejecting on a previously
rejected `_loading`, adopting `window.Stripe`, or injecting Stripe.js —
`scriptLoads` says whether the script's load event fires and defines
`window.Stripe`); then it always calls `createPaymentMethod`, mapping an
error response to a thrown `StripeError` (message/code/type verbatim) and
a success response to the uniform token via `successToken`. -/
def tokenizeRun (st : HandlerState) (windowDefined : Bool) (dom : Dom)
    (scriptLoads : Bool) (resp : StripeResponse) : TokenizeOutcome :=
  let afterLoad : Except TokenizeOutcome Unit :=
    if st.loaded then .ok ()
    else if st.loading.isSome && st.rejected then
      .error (.scriptError "Failed to load Stripe.js. Check your network connection.")
    else if !windowDefined then
      .error (.envError "StripeCSR.load() can only be called in a browser environment.")
    else if dom.stripeGlobal then .ok ()
    else if scriptLoads then .ok ()
    else .error (.scriptError "Failed to load Stripe.js. Check your network connection.")
  match afterLoad with
  | .error e => e
  | .ok _ =>
    match resp with
    | .success pmId => .processorCall (.ok (successToken pmId))
    | .failure message code errType =>
      .processorCall (.error
        { message := match message with
            | none => "Card validation failed."
            | some m => if m = "" then "Card validation failed." else m
          code := code, errType := errType })

end StripeCSR

example :
    AuthorizeNetCSR.tokenizeRun "ck" "login" {} true { acceptGlobal := true } true
      (some { cardNumber := some "4111111111111111", expDate := some "12/30",
              cvv := some "123" }) 10 26 =
    .dispatched { clientKey := "ck", apiLoginID := "login",
                  cardNumber := "4111111111111111", month := "12", year := "30",
                  cardCode := "123" } := by rfl

example :
    StripeCSR.tokenizeRun {} true { stripeGlobal := true } true (.success "pm_1") =
      .processorCall (.ok { token := "pm_1", descriptor := "STRIPE.PAYMENT_METHOD" }) := by rfl

/-- C6: expiry normalization (variant A card validation) fails with the
expired-specific `ValidationError` exactly for the normalized
`(month, year)` pairs strictly before the current `(month, year)` — the
lexicographic order on (two-digit year, month) the code implements —
succeeds for the present month and every later pair, and rejects months
outside `[1, 12]` with a `ValidationError`.  "Now" enters as the
`curMonth`/`curYear` parameters read from the clock. -/
theorem claim_C6_expiry_normalization (m y cm cy : Nat) :
    ((m < 1 ∨ 12 < m) →
      AuthorizeNetCSR.checkExpiryNums m y cm cy =
        some (.validationError "Invalid expiration month.")) ∧
    (1 ≤ m → m ≤ 12 →
      (AuthorizeNetCSR.checkExpiryNums m y cm cy =
          some (.validationError "This card has expired.") ↔
        (y < cy ∨ (y = cy ∧ m < cm)))) ∧
    (1 ≤ m → m ≤ 12 → ¬(y < cy ∨ (y = cy ∧ m < cm)) →
      AuthorizeNetCSR.checkExpiryNums m y cm cy = none) := by
  have hkey : ((decide (y < cy) || (y == cy && decide (m < cm))) = true) ↔
      (y < cy ∨ (y = cy ∧ m < cm)) := by simp
  refine ⟨fun h => ?_, fun h1 h2 => ?_, fun h1 h2 h3 => ?_⟩
  · have hb : (decide (m < 1) || decide (m > 12)) = true := by
      simp only [Bool.or_eq_true, decide_eq_true_eq, gt_iff_lt]
      omega
    unfold AuthorizeNetCSR.checkExpiryNums
    rw [hb, if_pos rfl]
  · have hb : (decide (m < 1) || decide (m > 12)) = false := by
      simp only [Bool.or_eq_false_iff, decide_eq_false_iff_not, gt_iff_lt, not_lt]
      omega
    unfold AuthorizeNetCSR.checkExpiryNums
    rw [hb, if_neg (show ¬(false = true) by simp)]
    constructor
    · intro h
      by_cases hc : (decide (y < cy) || (y == cy && decide (m < cm))) = true
      · exact hkey.mp hc
      · rw [if_neg hc] at h
        exact absurd h (by simp)
    · intro h
      rw [if_pos (hkey.mpr h)]
  · have hb : (decide (m < 1) || decide (m > 12)) = false := by
      simp only [Bool.or_eq_false_iff, decide_eq_false_iff_not, gt_iff_lt, not_lt]
      omega
    have hc : ¬((decide (y < cy) || (y == cy && decide (m < cm))) = true) := by
      intro hcc
      exact h3 (hkey.mp hcc)
    unfold AuthorizeNetCSR.checkExpiryNums
    rw [hb, if_neg (show ¬(false = true) by simp), if_neg hc]

/-- Concrete instances of `claim_C6_expiry_normalization`: month 13 is an
invalid month; 01/20 is expired when "now" is June 2025; 12/30 passes when
"now" is October 2026. -/
theorem claim_C6_expiry_normalization_witness :
    (AuthorizeNetCSR.checkExpiryNums 13 30 10 26 =
      some (.validationError "Invalid expiration month.")) ∧
    (AuthorizeNetCSR.checkExpiryNums 1 20 6 25 =
      some (.validationError "This card has expired.")) ∧
    (AuthorizeNetCSR.checkExpiryNums 12 30 10 26 = none) :=
  ⟨(claim_C6_expiry_normalization 13 30 10 26).1 (Or.inr (by decide)),
    ((claim_C6_expiry_normalization 1 20 6 25).2.1 (by decide) (by decide)).mpr
      (Or.inl (by decide)),
    (claim_C6_expiry_normalization 12 30 10 26).2.2 (by decide) (by decide) (by decide)⟩

/-- The `x || ""` default preserves every string, including the empty
one. -/
theorem jsOrDefault_empty (s : String) : jsOrDefault (some s) "" = s := by
  show (if s = "" then "" else s) = s
  split
  · next h => exact h.symm
  · rfl

/-- Evaluates `charge`/`authorize` on data whose `token` and `amount` are truthy
produce the body built from the data's fields. -/
theorem charge_ok (d : ChargeData) (ht : strTruthy d.token = true)
    (ha : d.amount.truthy = true) :
    PaymentModule.charge (some d) =
      .ok { token := d.token.getD "", descriptor := jsOrDefault d.descriptor "",
            amount := d.amount.jsString, currency := jsOrDefault d.currency "USD",
            invoice_number := jsOrDefault d.invoiceNumber "",
            description := jsOrDefault d.description "",
            billing := d.billing.getD [] } := by
  simp [PaymentModule.charge, ht, ha]

/-- The `authorize` counterpart of `charge_ok`. -/
theorem authorize_ok (d : ChargeData) (ht : strTruthy d.token = true)
    (ha : d.amount.truthy = true) :
    PaymentModule.authorize (some d) =
      .ok { token := d.token.getD "", descriptor := jsOrDefault d.descriptor "",
            amount := d.amount.jsString, currency := jsOrDefault d.currency "USD",
            invoice_number := jsOrDefault d.invoiceNumber "",
            description := jsOrDefault d.description "",
            billing := d.billing.getD [] } := by
  simp [PaymentModule.authorize, ht, ha]

/-- C7: round-trip — a `PaymentToken` produced by a processor handler,
passed unmodified (with any truthy amount) into `charge()` or
`authorize()`, yields a request body whose `token` and `descriptor` equal
the handler's output exactly.  The hypothesis `pt.token ≠ ""` records that
`charge`/`authorize` refuse an empty token before any request is built. -/
theorem claim_C7_token_roundtrip (pt : PaymentToken) (d : ChargeData)
    (htok : d.token = some pt.token) (hdesc : d.descriptor = some pt.descriptor)
    (hne : pt.token ≠ "") (ha : d.amount.truthy = true) :
    (∃ body, PaymentModule.charge (some d) = .ok body ∧
      body.token = pt.token ∧ body.descriptor = pt.descriptor) ∧
    (∃ body, PaymentModule.authorize (some d) = .ok body ∧
      body.token = pt.token ∧ body.descriptor = pt.descriptor) := by
  have ht : strTruthy d.token = true := by
    rw [htok]
    simp [strTruthy, hne]
  have htt : d.token.getD "" = pt.token := by rw [htok]; rfl
  have hdd : jsOrDefault d.descriptor "" = pt.descriptor := by
    rw [hdesc]; exact jsOrDefault_empty pt.descriptor
  exact ⟨⟨_, charge_ok d ht ha, htt, hdd⟩, ⟨_, authorize_ok d ht ha, htt, hdd⟩⟩

/-- Instance of `claim_C7_token_roundtrip` on the token `StripeCSR`'s
`tokenize` builds for payment method `"pm_1"`. -/
theorem claim_C7_token_roundtrip_witness :
    (∃ body,
      PaymentModule.charge (some { token := some "pm_1", descriptor := some "STRIPE.PAYMENT_METHOD", amount := .str "49.99" }) = .ok body ∧
      body.token = (StripeCSR.successToken "pm_1").token ∧
      body.descriptor = (StripeCSR.successToken "pm_1").descriptor) ∧
    (∃ body,
      PaymentModule.authorize (some { token := some "pm_1", descriptor := some "STRIPE.PAYMENT_METHOD", amount := .str "49.99" }) = .ok body ∧
      body.token = (StripeCSR.successToken "pm_1").token ∧
      body.descriptor = (StripeCSR.successToken "pm_1").descriptor) :=
  claim_C7_token_roundtrip (StripeCSR.successToken "pm_1")
    { token := some "pm_1", descriptor := some "STRIPE.PAYMENT_METHOD",
      amount := .str "49.99" }
    rfl rfl (by decide) (by decide)

/-- C8: for a well-formed `charge()`/`authorize()` request carrying only
`token` and a numeric decimal `amount`, the body serializes `amount` as
its decimal string, defaults `currency` to `"USD"`, defaults
`descriptor`/`invoice_number`/`description` to `""`, and defaults
`billing` to the empty object. -/
theorem claim_C8_body_serialization (t : String) (ht : t ≠ "") (amt : JSAmount)
    (ha : amt.truthy = true) :
    (∃ body, PaymentModule.charge (some { token := some t, amount := amt }) = .ok body ∧
      body.amount = amt.jsString ∧ body.currency = "USD" ∧ body.descriptor = "" ∧
      body.invoice_number = "" ∧ body.description = "" ∧ body.billing = []) ∧
    (∃ body, PaymentModule.authorize (some { token := some t, amount := amt }) = .ok body ∧
      body.amount = amt.jsString ∧ body.currency = "USD" ∧ body.descriptor = "" ∧
      body.invoice_number = "" ∧ body.description = "" ∧ body.billing = []) := by
  have hts : strTruthy (some t) = true := by simp [strTruthy, ht]
  exact
    ⟨⟨_, charge_ok { token := some t, amount := amt } hts ha,
      rfl, rfl, rfl, rfl, rfl, rfl⟩,
      ⟨_, authorize_ok { token := some t, amount := amt } hts ha,
        rfl, rfl, rfl, rfl, rfl, rfl⟩⟩

/-- Instances of `claim_C8_body_serialization` at the amounts `99.99`,
`100`, and `0.5`: each serializes to the plain decimal string, with no
scientific notation, and the defaults are applied. -/
theorem claim_C8_body_serialization_witness :
    (∃ body, PaymentModule.charge (some { token := some "tok_abc", amount := .num 99 "99" }) = .ok body ∧
      body.amount = "99.99" ∧ body.currency = "USD" ∧ body.descriptor = "" ∧
      body.invoice_number = "" ∧ body.description = "" ∧ body.billing = []) ∧
    (∃ body, PaymentModule.charge (some { token := some "tok_abc", amount := .num 100 "" }) = .ok body ∧
      body.amount = "100" ∧ body.currency = "USD" ∧ body.descriptor = "" ∧
      body.invoice_number = "" ∧ body.description = "" ∧ body.billing = []) ∧
    (∃ body, PaymentModule.authorize (some { token := some "tok_abc", amount := .num 0 "5" }) = .ok body ∧
      body.amount = "0.5" ∧ body.currency = "USD" ∧ body.descriptor = "" ∧
      body.invoice_number = "" ∧ body.description = "" ∧ body.billing = []) :=
  ⟨(claim_C8_body_serialization "tok_abc" (by decide) (.num 99 "99") (by decide)).1,
    (claim_C8_body_serialization "tok_abc" (by decide) (.num 100 "") (by decide)).1,
    (claim_C8_body_serialization "tok_abc" (by decide) (.num 0 "5") (by decide)).2⟩

/-- C9: `capture()` and `void()` reject a missing `transactionId`
(including the empty-object call) with a `ValidationError` before any
backend request body exists; when `capture()` is given an `amount` it is
passed through as a string, and the `amount` field is omitted from the
body entirely when not provided. -/
theorem claim_C9_capture_void_validation :
    (PaymentModule.capture none =
      .error (.validationError "transactionId is required for capture().")) ∧
    (PaymentModule.capture (some {}) =
      .error (.validationError "transactionId is required for capture().")) ∧
    (PaymentModule.voidTx none =
      .error (.validationError "transactionId is required for void().")) ∧
    (PaymentModule.voidTx (some {}) =
      .error (.validationError "transactionId is required for void().")) ∧
    (∀ (tid : String) (a : JSAmount), tid ≠ "" → a ≠ .undef →
      PaymentModule.capture (some { transactionId := some tid, amount := a }) =
        .ok { transaction_id := tid, amount := some a.jsString }) ∧
    (∀ tid : String, tid ≠ "" →
      PaymentModule.capture (some { transactionId := some tid }) =
        .ok { transaction_id := tid, amount := none }) ∧
    (∀ tid : String, tid ≠ "" →
      PaymentModule.voidTx (some { transactionId := some tid }) =
        .ok { transaction_id := tid }) := by
  refine ⟨rfl, rfl, rfl, rfl, fun tid a h1 h2 => ?_, fun tid h1 => ?_, fun tid h1 => ?_⟩
  · have ht : strTruthy (some tid) = true := by simp [strTruthy, h1]
    simp [PaymentModule.capture, ht, h2]
  · have ht : strTruthy (some tid) = true := by simp [strTruthy, h1]
    simp [PaymentModule.capture, ht]
  · have ht : strTruthy (some tid) = true := by simp [strTruthy, h1]
    simp [PaymentModule.voidTx, ht]

/-- Scenario-D/E instances of `claim_C9_capture_void_validation`:
`capture({transactionId: "auth_1", amount: "10.00"})` sends
`{transaction_id: "auth_1", amount: "10.00"}`, and omitting `amount`
omits the field. -/
theorem claim_C9_capture_void_validation_witness :
    (PaymentModule.capture (some { transactionId := some "auth_1", amount := .str "10.00" }) =
      .ok { transaction_id := "auth_1", amount := some "10.00" }) ∧
    (PaymentModule.capture (some { transactionId := some "auth_1" }) =
      .ok { transaction_id := "auth_1", amount := none }) ∧
    (PaymentModule.voidTx (some { transactionId := some "auth_1" }) =
      .ok { transaction_id := "auth_1" }) :=
  ⟨claim_C9_capture_void_validation.2.2.2.2.1 "auth_1" (.str "10.00")
      (by decide) (by decide),
    claim_C9_capture_void_validation.2.2.2.2.2.1 "auth_1" (by decide),
    claim_C9_capture_void_validation.2.2.2.2.2.2 "auth_1" (by decide)⟩

/-- C10 (implicit): the required-field check of `charge()`/`authorize()`
is a truthiness test — an `amount` that is present but falsy (`0`, `""`,
`NaN`) is rejected with the same missing-fields `ValidationError` as an
absent one, while any non-empty string (numeric or not) passes validation
and is serialized verbatim into the request body of both `charge()` and
`authorize()`. -/
theorem claim_C10_amount_truthiness :
    (∀ d : ChargeData, d.amount.truthy = false →
      PaymentModule.charge (some d) =
        .error (.validationError "token and amount are required for charge().") ∧
      PaymentModule.authorize (some d) =
        .error (.validationError "token and amount are required for authorize().")) ∧
    (∀ (d : ChargeData) (s : String), strTruthy d.token = true → d.amount = .str s →
      s ≠ "" →
      (∃ body, PaymentModule.charge (some d) = .ok body ∧ body.amount = s) ∧
      (∃ body, PaymentModule.authorize (some d) = .ok body ∧ body.amount = s)) := by
  constructor
  · intro d ha
    have hc : (!strTruthy d.token || !d.amount.truthy) = true := by
      rw [ha]
      simp
    constructor
    · simp [PaymentModule.charge, hc]
    · simp [PaymentModule.authorize, hc]
  · intro d s ht hs hne
    have ha : d.amount.truthy = true := by
      rw [hs]
      simp [JSAmount.truthy, hne]
    have hb : d.amount.jsString = s := by
      rw [hs]
      rfl
    exact ⟨⟨_, charge_ok d ht ha, hb⟩, ⟨_, authorize_ok d ht ha, hb⟩⟩

/-- Instances of `claim_C10_amount_truthiness`: amount `0`, `""`, and
`NaN` are rejected like a missing amount; the strings `"0"`, `"-5"`, and
`"abc"` pass validation and reach the body verbatim. -/
theorem claim_C10_amount_truthiness_witness :
    (PaymentModule.charge (some { token := some "tok", amount := .num 0 "" }) =
        .error (.validationError "token and amount are required for charge().") ∧
      PaymentModule.authorize (some { token := some "tok", amount := .num 0 "" }) =
        .error (.validationError "token and amount are required for authorize().")) ∧
    (PaymentModule.charge (some { token := some "tok", amount := .str "" }) =
        .error (.validationError "token and amount are required for charge().") ∧
      PaymentModule.authorize (some { token := some "tok", amount := .str "" }) =
        .error (.validationError "token and amount are required for authorize().")) ∧
    (PaymentModule.charge (some { token := some "tok", amount := .nan }) =
        .error (.validationError "token and amount are required for charge().") ∧
      PaymentModule.authorize (some { token := some "tok", amount := .nan }) =
        .error (.validationError "token and amount are required for authorize().")) ∧
    ((∃ body, PaymentModule.charge (some { token := some "tok", amount := .str "0" }) =
        .ok body ∧ body.amount = "0") ∧
      (∃ body, PaymentModule.authorize (some { token := some "tok", amount := .str "0" }) =
        .ok body ∧ body.amount = "0")) ∧
    ((∃ body, PaymentModule.charge (some { token := some "tok", amount := .str "-5" }) =
        .ok body ∧ body.amount = "-5") ∧
      (∃ body, PaymentModule.authorize (some { token := some "tok", amount := .str "-5" }) =
        .ok body ∧ body.amount = "-5")) ∧
    ((∃ body, PaymentModule.charge (some { token := some "tok", amount := .str "abc" }) =
        .ok body ∧ body.amount = "abc") ∧
      (∃ body, PaymentModule.authorize (some { token := some "tok", amount := .str "abc" }) =
        .ok body ∧ body.amount = "abc")) :=
  ⟨claim_C10_amount_truthiness.1 { token := some "tok", amount := .num 0 "" } (by decide),
    claim_C10_amount_truthiness.1 { token := some "tok", amount := .str "" } (by decide),
    claim_C10_amount_truthiness.1 { token := some "tok", amount := .nan } (by decide),
    claim_C10_amount_truthiness.2 { token := some "tok", amount := .str "0" } "0"
      (by decide) rfl (by decide),
    claim_C10_amount_truthiness.2 { token := some "tok", amount := .str "-5" } "-5"
      (by decide) rfl (by decide),
    claim_C10_amount_truthiness.2 { token := some "tok", amount := .str "abc" } "abc"
      (by decide) rfl (by decide)⟩

/-- While `_loaded` is false and `_loading` holds promise `p`, any number
of further `load()` calls leave the state unchanged and all return that
same promise. -/
theorem loadCalls_pending (n : Nat) (s : PaymentModule.State) (p : Nat)
    (h1 : s.loaded = false) (h2 : s.loading = some p) :
    PaymentModule.loadCalls n s = (s, List.replicate n (.sharedPromise p)) := by
  have hc : PaymentModule.loadCall s = (s, .sharedPromise p) := by
    unfold PaymentModule.loadCall
    rw [h1, if_neg (show ¬(false = true) by simp), h2]
  induction n with
  | zero => rfl
  | succ n ih =>
    unfold PaymentModule.loadCalls
    rw [hc]
    dsimp only
    rw [ih]
    rfl

/-- C3: `PaymentModule.load()` is idempotent and memoized — with `_loaded`
set it returns the cached processor and changes nothing; with a pending
`_loading` promise it returns that same promise and changes nothing; and
`n + 1` concurrent calls on a fresh instance start the async body (config
fetch plus at most one handler script load) exactly once, with every
caller receiving the same promise (hence all settling together). -/
theorem claim_C3_load_memoized :
    (∀ s : PaymentModule.State, s.loaded = true →
      PaymentModule.loadCall s = (s, .cachedValue)) ∧
    (∀ (s : PaymentModule.State) (p : Nat), s.loaded = false → s.loading = some p →
      PaymentModule.loadCall s = (s, .sharedPromise p)) ∧
    (∀ n : Nat,
      (PaymentModule.loadCalls (n + 1) ({} : PaymentModule.State)).1.fetchCount = 1 ∧
      (PaymentModule.loadCalls (n + 1) ({} : PaymentModule.State)).2 =
        List.replicate (n + 1) (.sharedPromise 0)) := by
  refine ⟨fun s h => ?_, fun s p h1 h2 => ?_, fun n => ?_⟩
  · unfold PaymentModule.loadCall
    rw [h, if_pos rfl]
  · unfold PaymentModule.loadCall
    rw [h1, if_neg (show ¬(false = true) by simp), h2]
  · have h0 : PaymentModule.loadCall ({} : PaymentModule.State) =
        ({ loading := some 0, fetchCount := 1, nextPromise := 1 }, .sharedPromise 0) := by
      rfl
    have hrest := loadCalls_pending n
      { loading := some 0, fetchCount := 1, nextPromise := 1 } 0 rfl rfl
    have hall : PaymentModule.loadCalls (n + 1) ({} : PaymentModule.State) =
        ({ loading := some 0, fetchCount := 1, nextPromise := 1 },
          List.replicate (n + 1) (.sharedPromise 0)) := by
      unfold PaymentModule.loadCalls
      rw [h0]
      dsimp only
      rw [hrest]
      rfl
    rw [hall]
    exact ⟨rfl, rfl⟩

/-- Instances of `claim_C3_load_memoized`: a loaded instance answers from
cache, a pending instance hands back promise `0`, and three concurrent
calls on a fresh instance trigger one body run and all receive promise
`0`. -/
theorem claim_C3_load_memoized_witness :
    (PaymentModule.loadCall { loaded := true, processor := some "stripe" } =
      ({ loaded := true, processor := some "stripe" }, .cachedValue)) ∧
    (PaymentModule.loadCall { loading := some 0, fetchCount := 1, nextPromise := 1 } =
      ({ loading := some 0, fetchCount := 1, nextPromise := 1 }, .sharedPromise 0)) ∧
    ((PaymentModule.loadCalls 3 ({} : PaymentModule.State)).1.fetchCount = 1 ∧
      (PaymentModule.loadCalls 3 ({} : PaymentModule.State)).2 =
        List.replicate 3 (.sharedPromise 0)) :=
  ⟨claim_C3_load_memoized.1 _ rfl,
    claim_C3_load_memoized.2.1 _ 0 rfl rfl,
    claim_C3_load_memoized.2.2 2⟩

/-- C4 as stated is false: after the first `load()`'s async body fails,
the instance holds `_loaded = false` and `_loading` = the rejected promise
`0`; a subsequent `load()` returns that same cached rejection — promise
`0` again — and starts no fresh body (the fetch/body counters stay at 1),
for `PaymentModule` and for the handler-level `load()` alike. -/
theorem claim_C4_counterexample_load_retry :
    (PaymentModule.loadFailure (PaymentModule.loadCall ({} : PaymentModule.State)).1 =
      { loading := some 0, rejected := true, fetchCount := 1, nextPromise := 1 }) ∧
    (PaymentModule.loadCall
        { loading := some 0, rejected := true, fetchCount := 1, nextPromise := 1 } =
      ({ loading := some 0, rejected := true, fetchCount := 1, nextPromise := 1 },
        .sharedPromise 0)) ∧
    (handlerScriptError (handlerLoadCall true ({} : HandlerState)).1 =
      { loading := some 0, rejected := true, bodyRuns := 1, nextPromise := 1 }) ∧
    (handlerLoadCall true
        { loading := some 0, rejected := true, bodyRuns := 1, nextPromise := 1 } =
      ({ loading := some 0, rejected := true, bodyRuns := 1, nextPromise := 1 },
        .sharedPromise 0)) := by
  refine ⟨rfl, rfl, rfl, rfl⟩

/-- C4 amended: a failed `load()` is indeed never retried automatically,
but it is also not retryable by calling `load()` again on the same
instance — `_loading` is never cleared on failure and `_loaded` stays
false, so every later call returns the same cached rejected promise and
performs no fresh attempt.  This holds for `PaymentModule.load` and for
the shared memoization prefix of both handler variants' `load`. -/
theorem claim_C4_failed_load_cached :
    (∀ (s : PaymentModule.State) (p : Nat), s.loaded = false → s.loading = some p →
      s.rejected = true →
      PaymentModule.loadCall s = (s, .sharedPromise p)) ∧
    (∀ (s : HandlerState) (p : Nat) (w : Bool), s.loaded = false → s.loading = some p →
      s.rejected = true →
      handlerLoadCall w s = (s, .sharedPromise p)) := by
  refine ⟨fun s p h1 h2 _ => ?_, fun s p w h1 h2 _ => ?_⟩
  · unfold PaymentModule.loadCall
    rw [h1, if_neg (show ¬(false = true) by simp), h2]
  · unfold handlerLoadCall
    rw [h1, if_neg (show ¬(false = true) by simp), h2]

/-- Instance of `claim_C4_failed_load_cached` at the post-failure states
reached from a fresh instance. -/
theorem claim_C4_failed_load_cached_witness :
    (PaymentModule.loadCall
        { loading := some 0, rejected := true, fetchCount := 1, nextPromise := 1 } =
      ({ loading := some 0, rejected := true, fetchCount := 1, nextPromise := 1 },
        .sharedPromise 0)) ∧
    (handlerLoadCall false
        { loading := some 0, rejected := true, bodyRuns := 1, nextPromise := 1 } =
      ({ loading := some 0, rejected := true, bodyRuns := 1, nextPromise := 1 },
        .sharedPromise 0)) :=
  ⟨claim_C4_failed_load_cached.1 _ 0 rfl rfl rfl,
    claim_C4_failed_load_cached.2 _ 0 false rfl rfl rfl⟩

/-- C5 as stated is false: on a fresh instance whose `load()` ran and
succeeded with `window` undefined (SSR, so no handler was constructed),
`tokenize()` fails with the not-loaded error, not the environment
error. -/
theorem claim_C5_counterexample_ssr :
    PaymentModule.tokenizeCall
        (PaymentModule.loadSuccess "stripe" false
          (PaymentModule.loadCall ({} : PaymentModule.State)).1) false "Stripe" =
      .error (.notLoadedError
        "Payment processor not loaded. Call dash.payment.load() first.") := by
  rfl

/-- C5 amended: every `tokenize()` call outside a browser context fails,
but in a pure SSR context — where any `load()` also ran without `window`,
and therefore never constructed the handler — it fails with
`NotLoadedError`, because the `_loaded`/`_handler` check precedes the
environment check; the `EnvironmentError` branch is reached only when a
handler was loaded in a browser context and `window` is undefined at
`tokenize()` time. -/
theorem claim_C5_ssr_tokenize_fails :
    (∀ (s : PaymentModule.State) (procName : String), s.handlerSet = false →
      PaymentModule.tokenizeCall s false procName =
        .error (.notLoadedError
          "Payment processor not loaded. Call dash.payment.load() first.")) ∧
    (∀ (s : PaymentModule.State) (procName : String), s.loaded = true →
      s.handlerSet = true →
      PaymentModule.tokenizeCall s false procName =
        .error (.environmentError
          ("tokenize() can only be called in a browser environment (CSR). " ++
            "Use charge() on the server side (SSR).")) ) ∧
    (∀ (slug : String) (s : PaymentModule.State),
      (PaymentModule.loadSuccess slug false s).handlerSet = s.handlerSet) := by
  refine ⟨fun s procName h => ?_, fun s procName h1 h2 => ?_, fun slug s => ?_⟩
  · simp [PaymentModule.tokenizeCall, h]
  · simp [PaymentModule.tokenizeCall, h1, h2]
  · simp [PaymentModule.loadSuccess]

/-- Instances of `claim_C5_ssr_tokenize_fails` at concrete SSR states. -/
theorem claim_C5_ssr_tokenize_fails_witness :
    (PaymentModule.tokenizeCall
        { processor := some "stripe", loaded := true, loading := some 0,
          fetchCount := 1, nextPromise := 1 } false "Stripe" =
      .error (.notLoadedError
        "Payment processor not loaded. Call dash.payment.load() first.")) ∧
    (PaymentModule.tokenizeCall
        { processor := some "stripe", loaded := true, handlerSet := true } false "Stripe" =
      .error (.environmentError
        ("tokenize() can only be called in a browser environment (CSR). " ++
          "Use charge() on the server side (SSR).")) ) ∧
    ((PaymentModule.loadSuccess "stripe" false
        { loading := some 0, fetchCount := 1, nextPromise := 1 }).handlerSet = false) :=
  ⟨claim_C5_ssr_tokenize_fails.1 _ "Stripe" rfl,
    claim_C5_ssr_tokenize_fails.2.1 _ "Stripe" rfl rfl,
    claim_C5_ssr_tokenize_fails.2.2 "stripe" _⟩

/-- C1 as stated is false for the handler level: on an unloaded handler
(fresh state) in a browser whose page already carries the processor
global, `tokenize()` does not fail with `NotLoadedError` — it implicitly
loads and then makes the processor call (Accept.js `dispatchData` with
the cleaned card, and Stripe `createPaymentMethod`). -/
theorem claim_C1_counterexample_handler_autoload :
    (AuthorizeNetCSR.tokenizeRun "ck" "login" ({} : HandlerState) true
        { acceptGlobal := true } true
        (some { cardNumber := some "4111111111111111", expDate := some "12/30",
                cvv := some "123" }) 10 26 =
      .dispatched { clientKey := "ck", apiLoginID := "login",
                    cardNumber := "4111111111111111", month := "12", year := "30",
                    cardCode := "123" }) ∧
    (StripeCSR.tokenizeRun ({} : HandlerState) true { stripeGlobal := true } true
        (.success "pm_1") =
      .processorCall (.ok { token := "pm_1", descriptor := "STRIPE.PAYMENT_METHOD" })) := by
  exact ⟨rfl, rfl⟩

/-- C1 amended: `PaymentModule.tokenize()` before any successful `load()`
(`_loaded` still false) always fails with `NotLoadedError` and makes no
processor call; the handler-level `tokenize()` of both variants instead
auto-invokes `load()` on an unloaded handler and proceeds to the
processor call when that implicit load succeeds. -/
theorem claim_C1_tokenize_requires_load :
    (∀ (s : PaymentModule.State) (w : Bool) (procName : String), s.loaded = false →
      PaymentModule.tokenizeCall s w procName =
        .error (.notLoadedError
          "Payment processor not loaded. Call dash.payment.load() first.")) ∧
    (∀ (ck login : String) (dom : Dom) (card : Option AuthorizeNetCSR.CardData)
        (cm cy : Nat) (c : AuthorizeNetCSR.CleanedCard),
      dom.acceptGlobal = true →
      AuthorizeNetCSR.validateAndClean card cm cy = .ok c →
      AuthorizeNetCSR.tokenizeRun ck login ({} : HandlerState) true dom true card cm cy =
        .dispatched { clientKey := ck, apiLoginID := login, cardNumber := c.cardNumber,
                      month := c.month, year := c.year, cardCode := c.cvv }) ∧
    (∀ (dom : Dom) (pmId : String), dom.stripeGlobal = true →
      StripeCSR.tokenizeRun ({} : HandlerState) true dom true (.success pmId) =
        .processorCall (.ok (StripeCSR.successToken pmId))) := by
  refine ⟨fun s w procName h => ?_, fun ck login dom card cm cy c hdom hval => ?_,
    fun dom pmId hdom => ?_⟩
  · simp [PaymentModule.tokenizeCall, h]
  · simp [AuthorizeNetCSR.tokenizeRun, hdom, hval]
  · simp [StripeCSR.tokenizeRun, hdom]

/-- Instances of `claim_C1_tokenize_requires_load` at concrete inputs. -/
theorem claim_C1_tokenize_requires_load_witness :
    (PaymentModule.tokenizeCall ({} : PaymentModule.State) true "Stripe" =
      .error (.notLoadedError
        "Payment processor not loaded. Call dash.payment.load() first.")) ∧
    (AuthorizeNetCSR.tokenizeRun "ck" "login" ({} : HandlerState) true
        { acceptGlobal := true } true
        (some { cardNumber := some "4111 1111 1111 1111", expDate := some "12/2030",
                cvv := some "123" }) 10 26 =
      .dispatched { clientKey := "ck", apiLoginID := "login",
                    cardNumber := "4111111111111111", month := "12", year := "30",
                    cardCode := "123" }) ∧
    (StripeCSR.tokenizeRun ({} : HandlerState) true { stripeGlobal := true } true
        (.success "pm_99") =
      .processorCall (.ok (StripeCSR.successToken "pm_99"))) :=
  ⟨claim_C1_tokenize_requires_load.1 {} true "Stripe" rfl,
    claim_C1_tokenize_requires_load.2.1 "ck" "login" { acceptGlobal := true }
      (some { cardNumber := some "4111 1111 1111 1111", expDate := some "12/2030",
              cvv := some "123" }) 10 26
      { cardNumber := "4111111111111111", month := "12", year := "30", cvv := "123" }
      rfl (by rfl),
    claim_C1_tokenize_requires_load.2.2 { stripeGlobal := true } "pm_99" rfl⟩

/-- C2 as stated is false for `AuthorizeNetCSR`: with no global and a
`<script>` tag for the sandbox Accept.js URL already in the document, its
`load()` does not attach a listener to the existing tag — it removes the
tag and injects a fresh duplicate of the same URL. -/
theorem claim_C2_counterexample_an_reinject :
    AuthorizeNetCSR.loadBody "test"
        { scripts := [AuthorizeNetCSR.ACCEPT_JS_SANDBOX] } =
      ({ scripts := [AuthorizeNetCSR.ACCEPT_JS_SANDBOX] },
        .removeAndInject AuthorizeNetCSR.ACCEPT_JS_SANDBOX
          AuthorizeNetCSR.ACCEPT_JS_SANDBOX) := by
  rfl

/-- C2 amended: both handlers adopt an existing global client symbol with
no script injection; `StripeCSR` additionally attaches a load listener to
an existing script tag for its URL instead of injecting a duplicate, and
injects only when neither exists; `AuthorizeNetCSR`, however, never
reuses an existing tag — when the global is absent it removes the first
`<script>` tag whose `src` contains `"authorize.net"`, if any, and always
injects a fresh tag for its environment's URL. -/
theorem claim_C2_script_reuse :
    (∀ (env : String) (dom : Dom), dom.acceptGlobal = true →
      AuthorizeNetCSR.loadBody env dom = (dom, .adoptGlobal)) ∧
    (∀ dom : Dom, dom.stripeGlobal = true →
      StripeCSR.loadBody dom = (dom, .adoptGlobal)) ∧
    (∀ (dom : Dom) (existing : String), dom.stripeGlobal = false →
      dom.scripts.find? (fun t => t = StripeCSR.STRIPE_JS_URL) = some existing →
      StripeCSR.loadBody dom = (dom, .attachListener existing)) ∧
    (∀ dom : Dom, dom.stripeGlobal = false →
      dom.scripts.find? (fun t => t = StripeCSR.STRIPE_JS_URL) = none →
      StripeCSR.loadBody dom =
        ({ dom with scripts := dom.scripts ++ [StripeCSR.STRIPE_JS_URL] },
          .injectScript StripeCSR.STRIPE_JS_URL)) ∧
    (∀ (env : String) (dom : Dom) (existing : String), dom.acceptGlobal = false →
      dom.scripts.find? (fun t => hasSubstr t.toList "authorize.net".toList) =
        some existing →
      AuthorizeNetCSR.loadBody env dom =
        ({ dom with scripts := dom.scripts.erase existing ++
            [if env = "live" then AuthorizeNetCSR.ACCEPT_JS_PROD
              else AuthorizeNetCSR.ACCEPT_JS_SANDBOX] },
          .removeAndInject existing
            (if env = "live" then AuthorizeNetCSR.ACCEPT_JS_PROD
              else AuthorizeNetCSR.ACCEPT_JS_SANDBOX))) ∧
    (∀ (env : String) (dom : Dom), dom.acceptGlobal = false →
      dom.scripts.find? (fun t => hasSubstr t.toList "authorize.net".toList) = none →
      AuthorizeNetCSR.loadBody env dom =
        ({ dom with scripts := dom.scripts ++
            [if env = "live" then AuthorizeNetCSR.ACCEPT_JS_PROD
              else AuthorizeNetCSR.ACCEPT_JS_SANDBOX] },
          .injectScript
            (if env = "live" then AuthorizeNetCSR.ACCEPT_JS_PROD
              else AuthorizeNetCSR.ACCEPT_JS_SANDBOX))) := by
  refine ⟨fun env dom h => ?_, fun dom h => ?_, fun dom existing h1 h2 => ?_,
    fun dom h1 h2 => ?_, fun env dom existing h1 h2 => ?_, fun env dom h1 h2 => ?_⟩
  · simp [AuthorizeNetCSR.loadBody, h]
  · simp [StripeCSR.loadBody, h]
  · simp [StripeCSR.loadBody, h1, h2]
  · simp [StripeCSR.loadBody, h1, h2]
  · simp only [String.toList] at h2
    simp [AuthorizeNetCSR.loadBody, h1, h2]
  · simp only [String.toList] at h2
    simp [AuthorizeNetCSR.loadBody, h1, h2]

/-- Instances of `claim_C2_script_reuse`: global adoption for both
handlers, listener reuse and fresh injection for Stripe, and removal plus
reinjection for Authorize.net. -/
theorem claim_C2_script_reuse_witness :
    (AuthorizeNetCSR.loadBody "live" { acceptGlobal := true } =
      ({ acceptGlobal := true }, .adoptGlobal)) ∧
    (StripeCSR.loadBody { stripeGlobal := true } =
      ({ stripeGlobal := true }, .adoptGlobal)) ∧
    (StripeCSR.loadBody { scripts := [StripeCSR.STRIPE_JS_URL] } =
      ({ scripts := [StripeCSR.STRIPE_JS_URL] },
        .attachListener StripeCSR.STRIPE_JS_URL)) ∧
    (StripeCSR.loadBody ({} : Dom) =
      ({ scripts := [StripeCSR.STRIPE_JS_URL] },
        .injectScript StripeCSR.STRIPE_JS_URL)) ∧
    (AuthorizeNetCSR.loadBody "live" { scripts := [AuthorizeNetCSR.ACCEPT_JS_SANDBOX] } =
      ({ scripts := [AuthorizeNetCSR.ACCEPT_JS_PROD] },
        .removeAndInject AuthorizeNetCSR.ACCEPT_JS_SANDBOX
          AuthorizeNetCSR.ACCEPT_JS_PROD)) ∧
    (AuthorizeNetCSR.loadBody "test" ({} : Dom) =
      ({ scripts := [AuthorizeNetCSR.ACCEPT_JS_SANDBOX] },
        .injectScript AuthorizeNetCSR.ACCEPT_JS_SANDBOX)) :=
  ⟨claim_C2_script_reuse.1 "live" { acceptGlobal := true } rfl,
    claim_C2_script_reuse.2.1 { stripeGlobal := true } rfl,
    claim_C2_script_reuse.2.2.1 { scripts := [StripeCSR.STRIPE_JS_URL] }
      StripeCSR.STRIPE_JS_URL rfl (by rfl),
    claim_C2_script_reuse.2.2.2.1 {} rfl rfl,
    claim_C2_script_reuse.2.2.2.2.1 "live" { scripts := [AuthorizeNetCSR.ACCEPT_JS_SANDBOX] }
      AuthorizeNetCSR.ACCEPT_JS_SANDBOX rfl (by rfl),
    claim_C2_script_reuse.2.2.2.2.2 "test" {} rfl rfl⟩
